import Mathlib

/-!
# chat_with_resume: a shallow embedding

The web client (`client/src/App.jsx`), the HTTP server (`server/server.js`) and the two
command-line scripts (`server/src/ingest.js`, `server/src/chat.js`) are embedded as pure
functions.  React state is an explicit record; external capabilities (the `fetch` call of the
client, the PDF loader, the vector store, the retrieval chain, the line reader) are
environment functions, and every call a handler makes to one of them is recorded in a trace.
-/

namespace ChatWithResume

/-! ## The web client: `client/src/App.jsx` -/

/-- An element of the `messages` state: `{ sender, text }`. -/
structure Message where
  sender : String
  text : String
  deriving DecidableEq, Repr

/-- An element of the `history` array of a chat request: `{ role, content }`. -/
structure HistoryEntry where
  role : String
  content : String
  deriving DecidableEq, Repr

/-- The selected `File` object; only its `name` is read by the component. -/
structure File where
  name : String
  deriving DecidableEq, Repr

/-- The seven `useState` cells of `App` (lines 6-12).  `namespace_` and `file` start as `null`,
which is `none` here. -/
structure AppState where
  messages : List Message
  input : String
  isLoading : Bool
  namespace_ : Option String
  file : Option File
  uploadStatus : String
  fileName : String
  deriving DecidableEq, Repr

/-- The initial values passed to `useState` (lines 6-12). -/
def AppState.initial : AppState :=
  { messages := [], input := "", isLoading := false, namespace_ := none,
    file := none, uploadStatus := "", fileName := "" }

/-- JavaScript truthiness of a `string | null` value: `null` and `''` are falsy. -/
def truthy : Option String → Bool
  | none => false
  | some s => s != ""

/-- The JSON body that `handleSubmit` posts to `/api/chat` (lines 67-74). -/
structure ChatRequest where
  question : String
  namespace_ : Option String
  history : List HistoryEntry
  deriving DecidableEq, Repr

/-- What the awaited `fetch` of `handleSubmit` can yield: the promise rejects (network error),
or a response arrives with its `ok` flag and, when its body parses, the `answer` field of the
parsed body, a string as the chat surface returns it (`none` when `response.json()`
rejects). -/
inductive FetchResult where
  | rejected
  | response (ok : Bool) (answer : Option String)
  deriving DecidableEq, Repr

/-- The state setter `setMessages(prev => f(prev))`. -/
def setMessages (f : List Message → List Message) (s : AppState) : AppState :=
  { s with messages := f s.messages }

/-- The state setter `setIsLoading(b)`. -/
def setIsLoading (b : Bool) (s : AppState) : AppState :=
  { s with isLoading := b }

/-- The state setter `setInput(v)`. -/
def setInput (v : String) (s : AppState) : AppState :=
  { s with input := v }

/-- The literal of line 82. -/
def errorMessage : Message :=
  { sender := "ai", text := "Sorry, I'm having trouble connecting to the server." }

/-- The `history` value of lines 70-73: `messages.map(msg => ({ role: ..., content: msg.text }))`. -/
def historyOf (messages : List Message) : List HistoryEntry :=
  messages.map fun msg =>
    { role := if msg.sender = "user" then "user" else "ai", content := msg.text }

/-- The guard of line 56: `!input || isLoading || !namespace`. -/
def submitBlocked (s : AppState) : Bool :=
  s.input == "" || s.isLoading || !truthy s.namespace_

/-- The request of lines 64-75, built from the values captured by the closure. -/
def submitRequest (s : AppState) : ChatRequest :=
  { question := s.input, namespace_ := s.namespace_, history := historyOf s.messages }

/-- Lines 58-61: the state updates made before the request is awaited. -/
def handleSubmitStart (s : AppState) : AppState :=
  let userMessage : Message := { sender := "user", text := s.input }
  setInput "" (setIsLoading true (setMessages (fun prev => prev ++ [userMessage]) s))

/-- Lines 76-85: what runs once the awaited `fetch` has settled. A rejected fetch, a
response that is not `ok` and a body that does not parse all land in the `catch` block. -/
def handleSubmitFinish (r : FetchResult) (s : AppState) : AppState :=
  let s1 :=
    match r with
    | .response true (some answer) =>
        let aiMessage : Message := { sender := "ai", text := answer }
        setMessages (fun prev => prev ++ [aiMessage]) s
    | _ => setMessages (fun prev => prev ++ [errorMessage]) s
  setIsLoading false s1

/-- The handler `handleSubmit` (lines 54-86), run to completion against the chat surface
`fetch`, with no other event handled in between.  The result is the new state and the list
of requests that were sent; `e.preventDefault()` touches neither. -/
def handleSubmit (fetch : ChatRequest → FetchResult) (s : AppState) :
    AppState × List ChatRequest :=
  if submitBlocked s then (s, [])
  else
    let request := submitRequest s
    (handleSubmitFinish (fetch request) (handleSubmitStart s), [request])

/-- The handler `handleNewChat` (lines 88-94).  It calls five setters and nothing else, so the
list of requests it sends is empty. -/
def handleNewChat (s : AppState) : AppState × List ChatRequest :=
  ({ s with namespace_ := none, messages := [], file := none, uploadStatus := "",
            fileName := "" }, [])

/-- The test of line 96, `!namespace`: the upload screen is rendered. -/
def awaitingDocument (s : AppState) : Bool :=
  !truthy s.namespace_

/-- The chat request failed: the fetch rejected or the response was not `ok`. -/
def requestFailed : FetchResult → Bool
  | .rejected => true
  | .response ok _ => !ok

/-- What the awaited `fetch` of `handleUpload` can yield: the promise rejects with an error
message, or a response arrives with its `ok` flag and the outcome of `response.json()`: the
`namespace` field of the parsed body (`none` when the field is absent or `null`), or the
message of the error with which parsing fails. -/
inductive UploadResult where
  | rejected (message : String)
  | response (ok : Bool) (data : Except String (Option String))

/-- The state setter `setNamespace(v)`. -/
def setNamespace (v : Option String) (s : AppState) : AppState :=
  { s with namespace_ := v }

/-- The state setter `setUploadStatus(v)`. -/
def setUploadStatus (v : String) (s : AppState) : AppState :=
  { s with uploadStatus := v }

/-- The message of line 45; the template literal reads `file.name`. -/
def greeting (file : File) : Message :=
  { sender := "ai", text := "Ready! Ask me anything about **" ++ file.name ++ "**." }

/-- The handler `handleUpload` (lines 26-52), run to completion against the upload surface
`fetch`, with no other event handled in between.  The result is the new state and the list
of files that were posted.  `setMessages([...])` of line 45 replaces the list. -/
def handleUpload (fetch : File → UploadResult) (s : AppState) : AppState × List File :=
  match s.file with
  | none => (setUploadStatus "Please select a file first." s, [])
  | some file =>
    let s1 := setUploadStatus "Uploading and processing..." (setIsLoading true s)
    let s2 :=
      match fetch file with
      | .response true (.ok namespace_) =>
          setUploadStatus "Processing complete!"
            (setMessages (fun _ => [greeting file]) (setNamespace namespace_ s1))
      | .response true (.error message) => setUploadStatus ("Error: " ++ message) s1
      | .response false _ => setUploadStatus "Error: Upload failed." s1
      | .rejected message => setUploadStatus ("Error: " ++ message) s1
    (setIsLoading false s2, [file])

/-- The user types `question` into the input (the `onChange` handler of line 198 calls
`setInput`) and submits the form. -/
def ask (fetch : ChatRequest → FetchResult) (question : String) (s : AppState) :
    AppState × List ChatRequest :=
  handleSubmit fetch (setInput question s)

/-- A session: the questions are asked one after the other, each turn run to completion
before the next one starts. -/
def askAll (fetch : ChatRequest → FetchResult) : List String → AppState → AppState
  | [], s => s
  | question :: rest, s => askAll fetch rest (ask fetch question s).1

/-! ## JavaScript values and external calls (server side) -/

/-- A JavaScript value as it can arrive in a parsed JSON body or come back from a library
call.  Numbers are integers here; only whether a number is zero is ever inspected. -/
inductive JsValue where
  | undefined
  | null
  | bool (b : Bool)
  | number (n : Int)
  | string (s : String)
  | array (items : List JsValue)
  | object (fields : List (String × JsValue))

/-- JavaScript `ToBoolean`: `undefined`, `null`, `false`, `0` and `''` are falsy, every
array and object is truthy. -/
def JsValue.truthy : JsValue → Bool
  | .undefined => false
  | .null => false
  | .bool b => b
  | .number n => n != 0
  | .string s => s != ""
  | .array _ => true
  | .object _ => true

/-- The value of `o[key]` for the own properties `fields` of an object: `undefined` when the
key is absent. -/
def getProp (fields : List (String × JsValue)) (key : String) : JsValue :=
  match fields.lookup key with
  | some v => v
  | none => .undefined

/-- Property access `v.key`: a `TypeError` on `undefined` and `null`, the property of an
object, and `undefined` on the other values (none of the keys read here exists on them). -/
def JsValue.get (v : JsValue) (key : String) : Except String JsValue :=
  match v with
  | .undefined => .error "TypeError"
  | .null => .error "TypeError"
  | .object fields => .ok (getProp fields key)
  | _ => .ok .undefined

/-- The JavaScript expression `a || b`. -/
def JsValue.or (a b : JsValue) : JsValue :=
  if a.truthy then a else b

/-- The argument of `new GoogleGenerativeAIEmbeddings({ model })`; the object built from it
is identified with this configuration. -/
structure EmbeddingsConfig where
  model : String
  deriving DecidableEq, Repr

/-- The `dbConfig` argument of `PineconeStore.fromDocuments` / `fromExistingIndex`;
`maxConcurrency` is `none` when the object literal has no such key. -/
structure StoreConfig where
  pineconeIndex : JsValue
  namespace_ : JsValue
  maxConcurrency : Option Nat

/-- The calls that leave the program: library constructors and the awaited capabilities. -/
inductive Call where
  | pdfLoad (filePath : String)
  | splitDocuments (chunkSize chunkOverlap : Nat) (docs : JsValue)
  | newEmbeddings (config : EmbeddingsConfig)
  | newPinecone
  | index (name : JsValue)
  | fromDocuments (docs : JsValue) (embeddings : EmbeddingsConfig) (dbConfig : StoreConfig)
  | fromExistingIndex (embeddings : EmbeddingsConfig) (dbConfig : StoreConfig)
  | asRetriever
  | newChatModel (model : String) (temperature : Rat)
  | createHistoryAwareRetriever
  | createStuffDocumentsChain
  | createRetrievalChain
  | invoke (chat_history : JsValue) (input : JsValue)

/-- The world outside the program: what each call returns or the error it throws, the
environment variable `PINECONE_INDEX_NAME`, and the value `randomUUID()` returns. -/
structure Env where
  respond : Call → Except String JsValue
  PINECONE_INDEX_NAME : JsValue
  randomUUID : String

/-- A computation that may throw, together with the calls it made (in order). -/
def Ext (α : Type) : Type := Except String α × List Call

/-- A computation that returns `a` and makes no call. -/
def Ext.pure {α : Type} (a : α) : Ext α := (.ok a, [])

/-- Sequencing: the second computation runs only when the first one did not throw. -/
def Ext.bind {α β : Type} (x : Ext α) (f : α → Ext β) : Ext β :=
  match x with
  | (.ok a, calls) => ((f a).1, calls ++ (f a).2)
  | (.error e, calls) => (.error e, calls)

instance : Monad Ext where
  pure := Ext.pure
  bind := Ext.bind

/-- One external call: recorded in the trace, answered by the environment. -/
def call (env : Env) (c : Call) : Ext JsValue := (env.respond c, [c])

/-- A JavaScript exception raised by the program itself (or a value it computed). -/
def liftExcept {α : Type} (r : Except String α) : Ext α := (r, [])

/-- Every successful result of `x` satisfies `P`. -/
def Ext.Returns {α : Type} (P : α → Prop) (x : Ext α) : Prop :=
  ∀ a, x.1 = .ok a → P a

/-- Every call made by `x` satisfies `Q`. -/
def Ext.Calls {α : Type} (Q : Call → Prop) (x : Ext α) : Prop :=
  ∀ c ∈ x.2, Q c

/-- Whenever `x` returns without throwing, it has made a call that satisfies `Q`. -/
def Ext.Reaches {α : Type} (Q : Call → Prop) (x : Ext α) : Prop :=
  ∀ a, x.1 = .ok a → ∃ c ∈ x.2, Q c

/-- The model name and configuration given to `GoogleGenerativeAIEmbeddings` in
`server.js` line 34 (`ingestDocument`). -/
def ingestDocumentEmbeddings : EmbeddingsConfig := { model := "text-embedding-004" }

/-- The model name and configuration given to `GoogleGenerativeAIEmbeddings` in
`server.js` line 78 (the `/api/chat` handler). -/
def chatHandlerEmbeddings : EmbeddingsConfig := { model := "text-embedding-004" }

/-- The model name and configuration given to `GoogleGenerativeAIEmbeddings` in
`ingest.js` line 29. -/
def ingestResumeEmbeddings : EmbeddingsConfig := { model := "text-embedding-004" }

/-- The model name and configuration given to `GoogleGenerativeAIEmbeddings` in
`chat.js` line 19. -/
def mainEmbeddings : EmbeddingsConfig := { model := "text-embedding-004" }

/-! ## The server: `server/server.js` -/

/-- An HTTP response: status code and the fields of its JSON body. -/
structure Response where
  status : Nat
  body : List (String × JsValue)

/-- The function `ingestDocument(filePath, namespace)` (lines 23-43). -/
def ingestDocument (env : Env) (filePath : String) (namespace_ : String) : Ext Unit := do
  let rawDocs ← call env (.pdfLoad filePath)
  let chunkedDocs ← call env (.splitDocuments 1000 100 rawDocs)
  let embeddings := ingestDocumentEmbeddings
  let _ ← call env (.newEmbeddings embeddings)
  let _ ← call env .newPinecone
  let pineconeIndex ← call env (.index env.PINECONE_INDEX_NAME)
  let _ ← call env (.fromDocuments chunkedDocs embeddings
    { pineconeIndex := pineconeIndex, namespace_ := .string namespace_, maxConcurrency := none })
  return ()

/-- The file object `req.file` that the upload middleware attaches; only `path` is read. -/
structure UploadedFile where
  path : String
  deriving DecidableEq, Repr

/-- The handler of `POST /api/upload` (lines 54-67); `file` is `req.file`, `none` when the
request carried no file. -/
def uploadHandler (env : Env) (file : Option UploadedFile) : Response × List Call :=
  match file with
  | none => ({ status := 400, body := [("error", .string "No file uploaded.")] }, [])
  | some f =>
    let filePath := f.path
    let uniqueNamespace := env.randomUUID
    match ingestDocument env filePath uniqueNamespace with
    | (.ok _, calls) =>
        ({ status := 200,
           body := [("namespace", .string uniqueNamespace),
                    ("message", .string "File uploaded and processed successfully.")] }, calls)
    | (.error _, calls) =>
        ({ status := 500, body := [("error", .string "Failed to process file.")] }, calls)

/-- The body of the `try` block of the `POST /api/chat` handler (lines 71-115); `body` holds
the properties of `req.body`, the object produced by the JSON body reader. -/
def chatHandlerTry (env : Env) (body : List (String × JsValue)) : Ext Response := do
  let question := getProp body "question"
  let history := getProp body "history"
  let namespace_ := getProp body "namespace"
  if !question.truthy || !namespace_.truthy then
    return { status := 400, body := [("error", .string "Question and namespace are required.")] }
  let _ ← call env .newPinecone
  let pineconeIndex ← call env (.index env.PINECONE_INDEX_NAME)
  let embeddings := chatHandlerEmbeddings
  let _ ← call env (.newEmbeddings embeddings)
  let _ ← call env (.fromExistingIndex embeddings
    { pineconeIndex := pineconeIndex, namespace_ := namespace_, maxConcurrency := none })
  let _ ← call env .asRetriever
  let _ ← call env (.newChatModel "gemini-2.0-flash" (1 / 2))
  let _ ← call env .createHistoryAwareRetriever
  let _ ← call env .createStuffDocumentsChain
  let _ ← call env .createRetrievalChain
  let response ← call env (.invoke (history.or (.array [])) question)
  let answer ← liftExcept (response.get "answer")
  return { status := 200, body := [("answer", answer)] }

/-- The handler of `POST /api/chat` (lines 69-120): the `try` block and its `catch`. -/
def chatHandler (env : Env) (body : List (String × JsValue)) : Response × List Call :=
  match chatHandlerTry env body with
  | (.ok r, calls) => (r, calls)
  | (.error _, calls) => ({ status := 500, body := [("error", .string "An error occurred.")] }, calls)

/-! ## The scripts: `server/src/ingest.js` and `server/src/chat.js` -/

/-- The constant `PDF_PATH` of `ingest.js`. -/
def PDF_PATH : String := "./data/Chiranshu_resume.pdf"

/-- The constant `RESUME_NAMESPACE` of `ingest.js` and `chat.js`. -/
def RESUME_NAMESPACE : String := "Chiranshu_resume"

/-- The body of the `try` block of `ingestResume` (`ingest.js` lines 18-40). -/
def ingestResumeTry (env : Env) : Ext Unit := do
  let rawDocs ← call env (.pdfLoad PDF_PATH)
  let chunkedDocs ← call env (.splitDocuments 1000 100 rawDocs)
  let embeddings := ingestResumeEmbeddings
  let _ ← call env (.newEmbeddings embeddings)
  let _ ← call env .newPinecone
  let pineconeIndex ← call env (.index env.PINECONE_INDEX_NAME)
  let _ ← call env (.fromDocuments chunkedDocs embeddings
    { pineconeIndex := pineconeIndex, namespace_ := .string RESUME_NAMESPACE,
      maxConcurrency := some 5 })
  return ()

/-- The function `ingestResume` (`ingest.js` lines 14-45): the `catch` block only logs, so
what remains observable is the list of calls made. -/
def ingestResume (env : Env) : List Call :=
  (ingestResumeTry env).2

/-- The object literal `{ role, content }` pushed onto `chatHistory`. -/
def historyEntry (role : String) (content : JsValue) : JsValue :=
  .object [("role", .string role), ("content", content)]

/-- The test of `chat.js` line 60, `question.toLowerCase() === 'exit'`.  Lower-casing is
done character by character on the ASCII letters; no other character lower-cases to one of
`e`, `x`, `i`, `t`. -/
def isExit (question : String) : Bool :=
  question.data.map Char.toLower == ['e', 'x', 'i', 't']

/-- The construction of the chain in `main` (`chat.js` lines 17-53). -/
def mainSetup (env : Env) : Ext Unit := do
  let _ ← call env .newPinecone
  let pineconeIndex ← call env (.index env.PINECONE_INDEX_NAME)
  let embeddings := mainEmbeddings
  let _ ← call env (.newEmbeddings embeddings)
  let _ ← call env (.fromExistingIndex embeddings
    { pineconeIndex := pineconeIndex, namespace_ := .string RESUME_NAMESPACE,
      maxConcurrency := none })
  let _ ← call env .asRetriever
  let _ ← call env (.newChatModel "gemini-2.0-flash" (1 / 2))
  let _ ← call env .createHistoryAwareRetriever
  let _ ← call env .createStuffDocumentsChain
  let _ ← call env .createRetrievalChain
  return ()

/-- The `while (true)` loop of `main` (`chat.js` lines 58-76), run on the lines that
`readlineSync.question` returns one after the other.  The result is `chatHistory` when the
loop stops at `exit` or has consumed every line supplied; an error thrown by `invoke`
is not caught. -/
def mainLoop (env : Env) : List String → List JsValue → Ext (List JsValue)
  | [], chatHistory => pure chatHistory
  | question :: rest, chatHistory =>
    if isExit question then pure chatHistory
    else do
      let response ← call env (.invoke (.array chatHistory) (.string question))
      let answer ← liftExcept (response.get "answer")
      mainLoop env rest
        (chatHistory ++ [historyEntry "user" (.string question), historyEntry "ai" answer])

/-- The function `main` of `chat.js` (lines 16-77): `chatHistory` starts empty. -/
def main (env : Env) (lines : List String) : Ext (List JsValue) := do
  mainSetup env
  mainLoop env lines []

/-! ## Reading histories and traces -/

/-- The `role` of an entry of `chatHistory`, when the entry is an object with a string role. -/
def JsValue.role? (entry : JsValue) : Option String :=
  match entry.get "role" with
  | .ok (.string r) => some r
  | _ => none

/-- The history the specification describes for a list of answered turns `(question, answer)`:
for each turn, in order, the user entry and then the assistant-side entry. -/
def transcript : List (String × JsValue) → List JsValue
  | [] => []
  | (question, answer) :: rest =>
      .object [("role", .string "user"), ("content", .string question)] ::
        .object [("role", .string "ai"), ("content", answer)] :: transcript rest

/-- The embeddings object a call is given, when it takes one. -/
def Call.embeddings? : Call → Option EmbeddingsConfig
  | .newEmbeddings config => some config
  | .fromDocuments _ embeddings _ => some embeddings
  | .fromExistingIndex embeddings _ => some embeddings
  | _ => none

/-- The `maxConcurrency` setting with which a call writes documents to the vector index:
`some none` is a write without the setting, `none` is a call that writes nothing. -/
def Call.writeConcurrency? : Call → Option (Option Nat)
  | .fromDocuments _ _ dbConfig => some dbConfig.maxConcurrency
  | _ => none

/-! ## Concrete inputs used below -/

/-- An environment in which every capability is available: each call succeeds and the chain
answers `Acme Corp.`. -/
def workingEnv : Env :=
  { respond := fun c =>
      match c with
      | .invoke _ _ => .ok (.object [("answer", .string "Acme Corp.")])
      | _ => .ok (.object []),
    PINECONE_INDEX_NAME := .string "resumes",
    randomUUID := "3f2b8c1e-0000-4000-8000-000000000001" }

/-- An environment in which the PDF cannot be read: `pdfLoad` throws, all else succeeds. -/
def brokenPdfEnv : Env :=
  { workingEnv with
    respond := fun c =>
      match c with
      | .pdfLoad _ => .error "Invalid PDF structure"
      | _ => .ok (.object []) }


/-- A client state in `Ready`: a document is loaded, the greeting is shown, a question is
typed and no turn is in flight. -/
def readyState : AppState :=
  { messages := [{ sender := "ai", text := "Ready! Ask me anything about **cv.pdf**." }],
    input := "Where did they work?", isLoading := false, namespace_ := some "ns-1",
    file := some { name := "cv.pdf" }, uploadStatus := "Processing complete!",
    fileName := "cv.pdf" }

/-- A chat surface that cannot be reached: every `fetch` rejects. -/
def rejectingFetch : ChatRequest → FetchResult := fun _ => .rejected

/-- A chat surface that answers every request with `Acme Corp.`. -/
def answeringFetch : ChatRequest → FetchResult := fun _ => .response true (some "Acme Corp.")

/-- Two answered turns of a command-line session. -/
def twoTurns : List (String × JsValue) :=
  [("Where did they work?", .string "Acme Corp."), ("When?", .string "Acme Corp.")]

/-- The history entries the specification describes for a list of answered turns
`(question, answer)` of the web client: for each turn, in order, the user entry and then
the assistant-side entry. -/
def clientTranscript : List (String × String) → List HistoryEntry
  | [] => []
  | (question, answer) :: rest =>
      { role := "user", content := question } :: { role := "ai", content := answer } ::
        clientTranscript rest

/-- A client state before any upload, with the file `cv.pdf` selected. -/
def fileChosenState : AppState :=
  { AppState.initial with file := some { name := "cv.pdf" }, fileName := "cv.pdf" }

/-- An upload surface that accepts every file and returns the namespace `ns-1`. -/
def acceptingUpload : File → UploadResult := fun _ => .response true (.ok (some "ns-1"))

/-- One answered turn of a web session. -/
def oneTurn : List (String × String) := [("Where did they work?", "Acme Corp.")]

/-! ## Theorems: the web client -/

/-- C1 (as stated, refuted): in the `Ready` state `readyState` with a non-empty question and a
chat surface whose `fetch` rejects, `handleSubmit` leaves three messages where there was one;
the failed question and the apology are in the history of the retry. -/
theorem handleSubmit_failure_grows_history :
    readyState.isLoading = false ∧ truthy readyState.namespace_ = true ∧
    readyState.input ≠ "" ∧
    requestFailed (rejectingFetch (submitRequest readyState)) = true ∧
    readyState.messages.length = 1 ∧
    (handleSubmit rejectingFetch readyState).1.messages.length = 3 ∧
    (handleSubmit rejectingFetch readyState).1.messages.length ≠ readyState.messages.length ∧
    (handleSubmit rejectingFetch
        (setInput "Where did they work?" (handleSubmit rejectingFetch readyState).1)).2
      = [{ question := "Where did they work?", namespace_ := some "ns-1",
           history :=
            [{ role := "ai", content := "Ready! Ask me anything about **cv.pdf**." },
             { role := "user", content := "Where did they work?" },
             { role := "ai",
               content := "Sorry, I'm having trouble connecting to the server." }] }] := by
  decide

/-- C1 (amended): in a `Ready` state with a non-empty question, when the chat request fails
(rejected fetch or non-OK response), `handleSubmit` leaves the message list equal to the old
one followed by the user's entry and the apology entry, so its length grows by two, the
session is not loading again, and both entries belong to the history built from the
messages for the next request. -/
theorem handleSubmit_failure_appends_question_and_apology
    (fetch : ChatRequest → FetchResult) (s : AppState)
    (hload : s.isLoading = false) (hns : truthy s.namespace_ = true) (hq : s.input ≠ "")
    (hfail : requestFailed (fetch (submitRequest s)) = true) :
    (handleSubmit fetch s).1.messages
        = s.messages ++ [{ sender := "user", text := s.input }, errorMessage] ∧
    (handleSubmit fetch s).1.messages.length = s.messages.length + 2 ∧
    (handleSubmit fetch s).1.isLoading = false ∧
    historyOf (handleSubmit fetch s).1.messages
        = historyOf s.messages ++
            [{ role := "user", content := s.input },
             { role := "ai", content := errorMessage.text }] := by
  have hb : submitBlocked s = false := by
    simp [submitBlocked, hload, hns, hq]
  have hm : (handleSubmit fetch s).1.messages
      = s.messages ++ [{ sender := "user", text := s.input }, errorMessage] := by
    cases hr : fetch (submitRequest s) with
    | rejected =>
        simp [handleSubmit, hb, hr, handleSubmitFinish, handleSubmitStart, setMessages,
          setIsLoading, setInput]
    | response ok answer =>
        have hok : ok = false := by simpa [requestFailed, hr] using hfail
        subst hok
        simp [handleSubmit, hb, hr, handleSubmitFinish, handleSubmitStart, setMessages,
          setIsLoading, setInput]
  refine ⟨hm, ?_, ?_, ?_⟩
  · rw [hm]; simp
  · simp [handleSubmit, hb, handleSubmitFinish, setIsLoading]
  · rw [hm]; simp [historyOf, errorMessage]

/-- Witness for C1 (amended): the theorem at `readyState` with a rejecting fetch. -/
theorem handleSubmit_failure_appends_question_and_apology_witness :
    (readyState.isLoading = false ∧ truthy readyState.namespace_ = true ∧
      readyState.input ≠ "" ∧
      requestFailed (rejectingFetch (submitRequest readyState)) = true) ∧
    (handleSubmit rejectingFetch readyState).1.messages
        = readyState.messages ++
            [{ sender := "user", text := readyState.input }, errorMessage] ∧
    (handleSubmit rejectingFetch readyState).1.messages.length
        = readyState.messages.length + 2 ∧
    (handleSubmit rejectingFetch readyState).1.isLoading = false ∧
    historyOf (handleSubmit rejectingFetch readyState).1.messages
        = historyOf readyState.messages ++
            [{ role := "user", content := readyState.input },
             { role := "ai", content := errorMessage.text }] :=
  ⟨by decide,
   handleSubmit_failure_appends_question_and_apology rejectingFetch readyState
    (by decide) (by decide) (by decide) (by decide)⟩

/-- C2: when the request is sent (the guard of line 56 passes) and the chat surface returns
the answer `a`, `handleSubmit` leaves the message list equal to the old list followed by
exactly the user's entry with the question and then the assistant's entry with `a`, the
session is not loading, the namespace is unchanged, and one request carrying the question
was sent. -/
theorem handleSubmit_success_appends_question_then_answer
    (fetch : ChatRequest → FetchResult) (s : AppState) (a : String)
    (hsent : submitBlocked s = false)
    (hans : fetch (submitRequest s) = .response true (some a)) :
    (handleSubmit fetch s).1.messages
        = s.messages ++ [{ sender := "user", text := s.input }, { sender := "ai", text := a }] ∧
    (handleSubmit fetch s).1.isLoading = false ∧
    (handleSubmit fetch s).1.namespace_ = s.namespace_ ∧
    truthy (handleSubmit fetch s).1.namespace_ = true ∧
    (handleSubmit fetch s).2 = [submitRequest s] ∧
    (submitRequest s).question = s.input := by
  have hns : truthy s.namespace_ = true := by
    simp only [submitBlocked, Bool.or_eq_false_iff, Bool.not_eq_false'] at hsent
    exact hsent.2
  refine ⟨?_, ?_, ?_, ?_, ?_, rfl⟩
  · simp [handleSubmit, hsent, hans, handleSubmitFinish, handleSubmitStart, setMessages,
      setIsLoading, setInput]
  · simp [handleSubmit, hsent, handleSubmitFinish, setIsLoading]
  · simp [handleSubmit, hsent, hans, handleSubmitFinish, handleSubmitStart, setMessages,
      setIsLoading, setInput]
  · simpa [handleSubmit, hsent, hans, handleSubmitFinish, handleSubmitStart, setMessages,
      setIsLoading, setInput] using hns
  · simp [handleSubmit, hsent]

/-- Witness for C2: the theorem at `readyState` with a chat surface answering `Acme Corp.`. -/
theorem handleSubmit_success_appends_question_then_answer_witness :
    (submitBlocked readyState = false ∧
      answeringFetch (submitRequest readyState) = .response true (some "Acme Corp.")) ∧
    (handleSubmit answeringFetch readyState).1.messages
        = readyState.messages ++
            [{ sender := "user", text := readyState.input },
             { sender := "ai", text := "Acme Corp." }] ∧
    (handleSubmit answeringFetch readyState).1.isLoading = false ∧
    (handleSubmit answeringFetch readyState).1.namespace_ = readyState.namespace_ ∧
    truthy (handleSubmit answeringFetch readyState).1.namespace_ = true ∧
    (handleSubmit answeringFetch readyState).2 = [submitRequest readyState] ∧
    (submitRequest readyState).question = readyState.input :=
  ⟨by decide,
   handleSubmit_success_appends_question_then_answer answeringFetch readyState "Acme Corp."
    (by decide) rfl⟩

/-- C6: when a turn is in flight (`isLoading`), or no namespace is set, or the input is
empty, `handleSubmit` sends no chat request and returns the state it was given, so
`messages`, `input`, `namespace` and `isLoading` are unchanged. -/
theorem handleSubmit_blocked_is_noop
    (fetch : ChatRequest → FetchResult) (s : AppState)
    (h : s.isLoading = true ∨ truthy s.namespace_ = false ∨ s.input = "") :
    (handleSubmit fetch s).2 = [] ∧
    (handleSubmit fetch s).1 = s ∧
    (handleSubmit fetch s).1.messages = s.messages ∧
    (handleSubmit fetch s).1.input = s.input ∧
    (handleSubmit fetch s).1.namespace_ = s.namespace_ ∧
    (handleSubmit fetch s).1.isLoading = s.isLoading := by
  have hb : submitBlocked s = true := by
    rcases h with h | h | h <;> simp [submitBlocked, h]
  simp [handleSubmit, hb]

/-- Witness for C6: a second submit while the first turn of `readyState` is in flight. -/
theorem handleSubmit_blocked_is_noop_witness :
    (setInput "And when?" (handleSubmitStart readyState)).isLoading = true ∧
    (handleSubmit answeringFetch (setInput "And when?" (handleSubmitStart readyState))).2 = [] ∧
    (handleSubmit answeringFetch (setInput "And when?" (handleSubmitStart readyState))).1
      = setInput "And when?" (handleSubmitStart readyState) :=
  ⟨by decide,
   (handleSubmit_blocked_is_noop answeringFetch
      (setInput "And when?" (handleSubmitStart readyState)) (Or.inl (by decide))).1,
   (handleSubmit_blocked_is_noop answeringFetch
      (setInput "And when?" (handleSubmitStart readyState)) (Or.inl (by decide))).2.1⟩

/-- C7: for every client state, `handleNewChat` yields a state whose namespace is `null` (the
upload screen of line 96 is shown), whose message list is empty and whose selected file,
file name and upload status are cleared; it sends no request, and it leaves `input` and
`isLoading` as they were. -/
theorem handleNewChat_resets (s : AppState) :
    (handleNewChat s).1.namespace_ = none ∧
    awaitingDocument (handleNewChat s).1 = true ∧
    (handleNewChat s).1.messages = [] ∧
    historyOf (handleNewChat s).1.messages = [] ∧
    (handleNewChat s).1.file = none ∧
    (handleNewChat s).1.fileName = "" ∧
    (handleNewChat s).1.uploadStatus = "" ∧
    (handleNewChat s).2 = [] ∧
    (handleNewChat s).1.input = s.input ∧
    (handleNewChat s).1.isLoading = s.isLoading := by
  simp [handleNewChat, awaitingDocument, truthy, historyOf]

/-! ## Lemmas on computations with a trace -/

theorem Ext.returns_pure {α : Type} (P : α → Prop) (a : α) (h : P a) :
    Ext.Returns P (pure a : Ext α) := by
  intro b hb
  cases hb
  exact h

theorem Ext.returns_bind {α β : Type} (P : β → Prop) (x : Ext α) (f : α → Ext β)
    (h : ∀ a, Ext.Returns P (f a)) : Ext.Returns P (x >>= f) := by
  intro b hb
  obtain ⟨r, calls⟩ := x
  cases r with
  | ok a => exact h a b hb
  | error e => cases hb

theorem Ext.calls_nil {α : Type} (Q : Call → Prop) (r : Except String α) :
    Ext.Calls Q ((r, []) : Ext α) := by
  intro c hc
  cases hc

theorem Ext.calls_call (Q : Call → Prop) (env : Env) (c : Call) (h : Q c) :
    Ext.Calls Q (call env c) := by
  intro d hd
  simp only [call, List.mem_singleton] at hd
  subst hd
  exact h

theorem Ext.calls_bind {α β : Type} (Q : Call → Prop) (x : Ext α) (f : α → Ext β)
    (hx : Ext.Calls Q x) (h : ∀ a, Ext.Calls Q (f a)) : Ext.Calls Q (x >>= f) := by
  intro c hc
  obtain ⟨r, calls⟩ := x
  cases r with
  | ok a =>
      have hc2 : c ∈ calls ++ (f a).2 := hc
      rcases List.mem_append.mp hc2 with h1 | h2
      · exact hx c h1
      · exact h a c h2
  | error e => exact hx c hc

/-! ## Lemmas on the server -/

theorem chatHandlerTry_falsy (env : Env) (body : List (String × JsValue))
    (h : (getProp body "question").truthy = false ∨ (getProp body "namespace").truthy = false) :
    chatHandlerTry env body
      = (.ok { status := 400,
               body := [("error", .string "Question and namespace are required.")] }, []) := by
  unfold chatHandlerTry
  rcases h with h | h <;> simp [h] <;> rfl

theorem chatHandlerTry_truthy_returns (env : Env) (body : List (String × JsValue))
    (hq : (getProp body "question").truthy = true)
    (hn : (getProp body "namespace").truthy = true) :
    Ext.Returns (fun r => r.status = 200) (chatHandlerTry env body) := by
  unfold chatHandlerTry
  simp only [hq, hn, Bool.not_true, Bool.or_self, Bool.false_eq_true, ↓reduceIte]
  repeat (with_reducible apply Ext.returns_bind; intro _)
  apply Ext.returns_pure
  rfl

/-- The calls of the chat handler once the request has passed validation. -/
theorem chatHandlerTry_truthy_calls (env : Env) (body : List (String × JsValue))
    (hq : (getProp body "question").truthy = true)
    (hn : (getProp body "namespace").truthy = true) :
    Ext.Calls (fun c =>
        c = .newPinecone ∨ c = .index env.PINECONE_INDEX_NAME ∨
        c = .newEmbeddings chatHandlerEmbeddings ∨
        (∃ pineconeIndex, c = .fromExistingIndex chatHandlerEmbeddings
          { pineconeIndex := pineconeIndex, namespace_ := getProp body "namespace",
            maxConcurrency := none }) ∨
        c = .asRetriever ∨ c = .newChatModel "gemini-2.0-flash" (1 / 2) ∨
        c = .createHistoryAwareRetriever ∨ c = .createStuffDocumentsChain ∨
        c = .createRetrievalChain ∨
        c = .invoke ((getProp body "history").or (.array [])) (getProp body "question"))
      (chatHandlerTry env body) := by
  unfold chatHandlerTry
  simp only [hq, hn, Bool.not_true, Bool.or_self, Bool.false_eq_true, ↓reduceIte]
  repeat
    (with_reducible apply Ext.calls_bind
     · first
       | apply Ext.calls_nil
       | (apply Ext.calls_call; simp)
     intro _)
  apply Ext.calls_nil

/-- The calls of `ingestDocument`. -/
theorem ingestDocument_calls (env : Env) (filePath namespace_ : String) :
    Ext.Calls (fun c =>
        c = .pdfLoad filePath ∨ (∃ docs, c = .splitDocuments 1000 100 docs) ∨
        c = .newEmbeddings ingestDocumentEmbeddings ∨ c = .newPinecone ∨
        c = .index env.PINECONE_INDEX_NAME ∨
        (∃ docs pineconeIndex, c = .fromDocuments docs ingestDocumentEmbeddings
          { pineconeIndex := pineconeIndex, namespace_ := .string namespace_,
            maxConcurrency := none }))
      (ingestDocument env filePath namespace_) := by
  unfold ingestDocument
  repeat
    (with_reducible apply Ext.calls_bind
     · first
       | apply Ext.calls_nil
       | (apply Ext.calls_call; simp)
     intro _)
  apply Ext.calls_nil

/-- The calls of `ingestResume`. -/
theorem ingestResumeTry_calls (env : Env) :
    Ext.Calls (fun c =>
        c = .pdfLoad PDF_PATH ∨ (∃ docs, c = .splitDocuments 1000 100 docs) ∨
        c = .newEmbeddings ingestResumeEmbeddings ∨ c = .newPinecone ∨
        c = .index env.PINECONE_INDEX_NAME ∨
        (∃ docs pineconeIndex, c = .fromDocuments docs ingestResumeEmbeddings
          { pineconeIndex := pineconeIndex, namespace_ := .string RESUME_NAMESPACE,
            maxConcurrency := some 5 }))
      (ingestResumeTry env) := by
  unfold ingestResumeTry
  repeat
    (with_reducible apply Ext.calls_bind
     · first
       | apply Ext.calls_nil
       | (apply Ext.calls_call; simp)
     intro _)
  apply Ext.calls_nil

/-- The calls of the set-up part of `main`. -/
theorem mainSetup_calls (env : Env) :
    Ext.Calls (fun c =>
        c = .newPinecone ∨ c = .index env.PINECONE_INDEX_NAME ∨
        c = .newEmbeddings mainEmbeddings ∨
        (∃ pineconeIndex, c = .fromExistingIndex mainEmbeddings
          { pineconeIndex := pineconeIndex, namespace_ := .string RESUME_NAMESPACE,
            maxConcurrency := none }) ∨
        c = .asRetriever ∨ c = .newChatModel "gemini-2.0-flash" (1 / 2) ∨
        c = .createHistoryAwareRetriever ∨ c = .createStuffDocumentsChain ∨
        c = .createRetrievalChain)
      (mainSetup env) := by
  unfold mainSetup
  repeat
    (with_reducible apply Ext.calls_bind
     · first
       | apply Ext.calls_nil
       | (apply Ext.calls_call; simp)
     intro _)
  apply Ext.calls_nil

/-- The loop of `main` only calls `invoke`. -/
theorem mainLoop_calls (env : Env) (lines : List String) :
    ∀ chatHistory : List JsValue,
      Ext.Calls (fun c => ∃ h q, c = .invoke h q) (mainLoop env lines chatHistory) := by
  induction lines with
  | nil =>
      intro chatHistory
      exact Ext.calls_nil _ _
  | cons question rest ih =>
      intro chatHistory
      unfold mainLoop
      split
      · exact Ext.calls_nil _ _
      · with_reducible apply Ext.calls_bind
        · apply Ext.calls_call
          exact ⟨_, _, rfl⟩
        intro response
        with_reducible apply Ext.calls_bind
        · apply Ext.calls_nil
        intro answer
        exact ih _

/-- Entries pushed by the loop of `main` keep a property that the two literals of lines
73-74 have. -/
theorem mainLoop_returns (P : JsValue → Prop) (env : Env)
    (huser : ∀ c, P (historyEntry "user" c)) (hai : ∀ c, P (historyEntry "ai" c))
    (lines : List String) :
    ∀ chatHistory : List JsValue, (∀ e ∈ chatHistory, P e) →
      Ext.Returns (fun h => ∀ e ∈ h, P e) (mainLoop env lines chatHistory) := by
  induction lines with
  | nil =>
      intro chatHistory hP
      exact Ext.returns_pure _ _ hP
  | cons question rest ih =>
      intro chatHistory hP
      unfold mainLoop
      split
      · exact Ext.returns_pure _ _ hP
      · with_reducible apply Ext.returns_bind
        intro response
        with_reducible apply Ext.returns_bind
        intro answer
        apply ih
        intro e he
        simp only [List.mem_append, List.mem_cons, List.mem_singleton, List.not_mem_nil,
          or_false] at he
        rcases he with he | he | he
        · exact hP e he
        · rw [he]; exact huser _
        · rw [he]; exact hai _

theorem Ext.bind_fst_ok {α β : Type} (x : Ext α) (f : α → Ext β) (a : α) (h : x.1 = .ok a) :
    (x >>= f) = ((f a).1, x.2 ++ (f a).2) := by
  obtain ⟨r, calls⟩ := x
  simp only at h
  subst h
  rfl

theorem chatHandler_trace (env : Env) (body : List (String × JsValue)) :
    (chatHandler env body).2 = (chatHandlerTry env body).2 := by
  rcases hx : chatHandlerTry env body with ⟨r, calls⟩
  cases r <;> simp [chatHandler, hx]

theorem ingestDocument_embeddings (env : Env) (filePath namespace_ : String) :
    ∀ c ∈ (ingestDocument env filePath namespace_).2, ∀ e, c.embeddings? = some e →
      e = ingestDocumentEmbeddings := by
  intro c hc e he
  rcases ingestDocument_calls env filePath namespace_ c hc with
    h | ⟨_, h⟩ | h | h | h | ⟨_, _, h⟩ <;> subst h <;>
    simp [Call.embeddings?] at he <;> exact he.symm

theorem ingestResume_embeddings (env : Env) :
    ∀ c ∈ ingestResume env, ∀ e, c.embeddings? = some e → e = ingestResumeEmbeddings := by
  intro c hc e he
  rcases ingestResumeTry_calls env c hc with
    h | ⟨_, h⟩ | h | h | h | ⟨_, _, h⟩ <;> subst h <;>
    simp [Call.embeddings?] at he <;> exact he.symm

theorem chatHandler_embeddings (env : Env) (body : List (String × JsValue)) :
    ∀ c ∈ (chatHandler env body).2, ∀ e, c.embeddings? = some e →
      e = chatHandlerEmbeddings := by
  intro c hc e he
  rw [chatHandler_trace] at hc
  by_cases hq : (getProp body "question").truthy = true
  · by_cases hn : (getProp body "namespace").truthy = true
    · rcases chatHandlerTry_truthy_calls env body hq hn c hc with
        h | h | h | ⟨_, h⟩ | h | h | h | h | h | h <;> subst h <;>
        simp [Call.embeddings?] at he <;> exact he.symm
    · rw [chatHandlerTry_falsy env body (Or.inr (by simpa using hn))] at hc
      cases hc
  · rw [chatHandlerTry_falsy env body (Or.inl (by simpa using hq))] at hc
    cases hc

theorem main_embeddings (env : Env) (lines : List String) :
    ∀ c ∈ (main env lines).2, ∀ e, c.embeddings? = some e → e = mainEmbeddings := by
  have hcalls : Ext.Calls (fun c => ∀ e, c.embeddings? = some e → e = mainEmbeddings)
      (main env lines) := by
    unfold main
    with_reducible apply Ext.calls_bind
    · intro c hc e he
      rcases mainSetup_calls env c hc with
        h | h | h | ⟨_, h⟩ | h | h | h | h | h <;> subst h <;>
        simp [Call.embeddings?] at he <;> exact he.symm
    · intro _ c hc e he
      obtain ⟨h, q, hinv⟩ := mainLoop_calls env lines [] c hc
      subst hinv
      simp [Call.embeddings?] at he
  exact hcalls

theorem transcript_length (turns : List (String × JsValue)) :
    (transcript turns).length = 2 * turns.length := by
  induction turns with
  | nil => rfl
  | cons t rest ih =>
      obtain ⟨q, a⟩ := t
      simp only [transcript, List.length_cons, ih]
      omega

theorem transcript_getElem? (turns : List (String × JsValue)) :
    ∀ i (hi : i < turns.length),
      (transcript turns)[2 * i]?
        = some (.object [("role", .string "user"), ("content", .string turns[i].1)]) ∧
      (transcript turns)[2 * i + 1]?
        = some (.object [("role", .string "ai"), ("content", turns[i].2)]) := by
  induction turns with
  | nil =>
      intro i hi
      simp at hi
  | cons t rest ih =>
      obtain ⟨q, a⟩ := t
      intro i hi
      cases i with
      | zero => simp [transcript]
      | succ j =>
          have hj : j < rest.length := by
            simp only [List.length_cons] at hi
            omega
          have h2 : 2 * (j + 1) = (2 * j + 1) + 1 := by omega
          rw [h2]
          simp only [transcript, List.getElem?_cons_succ, List.getElem_cons_succ]
          exact ih j hj

theorem transcript_append (xs ys : List (String × JsValue)) :
    transcript (xs ++ ys) = transcript xs ++ transcript ys := by
  induction xs with
  | nil => rfl
  | cons t rest ih =>
      obtain ⟨q, a⟩ := t
      simp [transcript, ih]

/-- The loop of `main` on answered questions: it ends with the old history followed by the
entries of the turns. -/
theorem mainLoop_answered (env : Env) (turns : List (String × JsValue)) :
    ∀ chatHistory : List JsValue,
      (∀ i (hi : i < turns.length),
        isExit turns[i].1 = false ∧
        ∃ response,
          env.respond (.invoke (.array (chatHistory ++ transcript (turns.take i)))
            (.string turns[i].1)) = .ok response ∧
          response.get "answer" = .ok turns[i].2) →
      (mainLoop env (turns.map Prod.fst) chatHistory).1
        = .ok (chatHistory ++ transcript turns) := by
  induction turns with
  | nil =>
      intro chatHistory _
      simp [mainLoop, transcript, pure, Ext.pure]
  | cons t rest ih =>
      obtain ⟨q, a⟩ := t
      intro chatHistory h
      obtain ⟨hexit, response, hresp, hans⟩ := h 0 (by simp)
      simp only [List.getElem_cons_zero, List.take_zero, transcript, List.append_nil]
        at hexit hresp hans
      have hrest := ih (chatHistory ++
          [.object [("role", .string "user"), ("content", .string q)],
           .object [("role", .string "ai"), ("content", a)]])
        (by
          intro i hi
          have := h (i + 1) (by simp only [List.length_cons]; omega)
          simpa [transcript] using this)
      simp only [List.map_cons, mainLoop, hexit, Bool.false_eq_true, ↓reduceIte]
      rw [Ext.bind_fst_ok (call env _) _ response hresp]
      dsimp only
      rw [Ext.bind_fst_ok (liftExcept (response.get "answer")) _ a hans]
      dsimp only
      simp only [historyEntry, hrest, transcript, List.append_assoc, List.cons_append,
        List.nil_append]

theorem Ext.reaches_call (Q : Call → Prop) (env : Env) (c : Call) (h : Q c) :
    Ext.Reaches Q (call env c) := by
  intro a _
  exact ⟨c, by simp [call], h⟩

theorem Ext.reaches_bind_left {α β : Type} (Q : Call → Prop) (x : Ext α) (f : α → Ext β)
    (hx : Ext.Reaches Q x) : Ext.Reaches Q (x >>= f) := by
  intro b hb
  obtain ⟨r, calls⟩ := x
  cases r with
  | ok a =>
      obtain ⟨c, hc, hQ⟩ := hx a rfl
      have hmem : c ∈ calls ++ (f a).2 := List.mem_append.mpr (Or.inl hc)
      exact ⟨c, hmem, hQ⟩
  | error e => cases hb

theorem Ext.reaches_bind_right {α β : Type} (Q : Call → Prop) (x : Ext α) (f : α → Ext β)
    (h : ∀ a, Ext.Reaches Q (f a)) : Ext.Reaches Q (x >>= f) := by
  intro b hb
  obtain ⟨r, calls⟩ := x
  cases r with
  | ok a =>
      obtain ⟨c, hc, hQ⟩ := h a b hb
      have hmem : c ∈ calls ++ (f a).2 := List.mem_append.mpr (Or.inr hc)
      exact ⟨c, hmem, hQ⟩
  | error e => cases hb

/-- An ingestion by the server that completes has written with `text-embedding-004`. -/
theorem ingestDocument_reaches (env : Env) (filePath namespace_ : String) :
    Ext.Reaches (fun c => ∃ docs cfg,
        c = .fromDocuments docs { model := "text-embedding-004" } cfg)
      (ingestDocument env filePath namespace_) := by
  unfold ingestDocument
  iterate 5 (with_reducible apply Ext.reaches_bind_right; intro _)
  with_reducible apply Ext.reaches_bind_left
  apply Ext.reaches_call
  exact ⟨_, _, rfl⟩

/-- An ingestion by the script that completes has written with `text-embedding-004`. -/
theorem ingestResumeTry_reaches (env : Env) :
    Ext.Reaches (fun c => ∃ docs cfg,
        c = .fromDocuments docs { model := "text-embedding-004" } cfg)
      (ingestResumeTry env) := by
  unfold ingestResumeTry
  iterate 5 (with_reducible apply Ext.reaches_bind_right; intro _)
  with_reducible apply Ext.reaches_bind_left
  apply Ext.reaches_call
  exact ⟨_, _, rfl⟩

/-- A chain built by `main` has opened the store with `text-embedding-004`. -/
theorem mainSetup_reaches (env : Env) :
    Ext.Reaches (fun c => ∃ cfg, c = .fromExistingIndex { model := "text-embedding-004" } cfg)
      (mainSetup env) := by
  unfold mainSetup
  iterate 3 (with_reducible apply Ext.reaches_bind_right; intro _)
  with_reducible apply Ext.reaches_bind_left
  apply Ext.reaches_call
  exact ⟨_, rfl⟩

/-- A chat request that passes validation and is answered has opened the store with
`text-embedding-004`. -/
theorem chatHandlerTry_reaches (env : Env) (body : List (String × JsValue))
    (hq : (getProp body "question").truthy = true)
    (hn : (getProp body "namespace").truthy = true) :
    Ext.Reaches (fun c => ∃ cfg, c = .fromExistingIndex { model := "text-embedding-004" } cfg)
      (chatHandlerTry env body) := by
  unfold chatHandlerTry
  simp only [hq, hn, Bool.not_true, Bool.or_self, Bool.false_eq_true, ↓reduceIte]
  iterate 4 (with_reducible apply Ext.reaches_bind_right; intro _)
  with_reducible apply Ext.reaches_bind_left
  apply Ext.reaches_call
  exact ⟨_, rfl⟩

/-! ## Theorems: the server -/

/-- C4: for every request body, the `/api/chat` handler answers with status 400 and the error
`Question and namespace are required.` exactly when the question or the namespace is falsy
(missing or empty); in that case it makes no call at all (no retrieval, no generation); and
when both are truthy a missing (or otherwise falsy) history does not cause a 400: the chain
is only ever invoked with the empty array as `chat_history`. -/
theorem chatHandler_rejects_iff_question_or_namespace_falsy
    (env : Env) (body : List (String × JsValue)) :
    (((chatHandler env body).1.status = 400 ∧
        (chatHandler env body).1.body
          = [("error", .string "Question and namespace are required.")]) ↔
      ((getProp body "question").truthy = false ∨
        (getProp body "namespace").truthy = false)) ∧
    ((chatHandler env body).1.status = 400 ↔
      ((getProp body "question").truthy = false ∨
        (getProp body "namespace").truthy = false)) ∧
    (((getProp body "question").truthy = false ∨ (getProp body "namespace").truthy = false) →
      (chatHandler env body).2 = []) ∧
    ((getProp body "question").truthy = true → (getProp body "namespace").truthy = true →
      (getProp body "history").truthy = false →
      (chatHandler env body).1.status ≠ 400 ∧
      ∀ h q, Call.invoke h q ∈ (chatHandler env body).2 →
        h = .array [] ∧ q = getProp body "question") := by
  have hfalsy : ((getProp body "question").truthy = false ∨
        (getProp body "namespace").truthy = false) →
      chatHandler env body
        = ({ status := 400,
             body := [("error", .string "Question and namespace are required.")] }, []) := by
    intro h
    simp [chatHandler, chatHandlerTry_falsy env body h]
  have htruthy : (getProp body "question").truthy = true →
      (getProp body "namespace").truthy = true →
      (chatHandler env body).1.status ≠ 400 ∧
      (chatHandler env body).2 = (chatHandlerTry env body).2 := by
    intro hq hn
    have hr := chatHandlerTry_truthy_returns env body hq hn
    unfold chatHandler
    rcases hx : chatHandlerTry env body with ⟨r, calls⟩
    cases r with
    | ok resp =>
        have h200 : resp.status = 200 := hr resp (by rw [hx])
        simp [h200]
    | error e => simp
  have hiff : (chatHandler env body).1.status = 400 ↔
      ((getProp body "question").truthy = false ∨
        (getProp body "namespace").truthy = false) := by
    constructor
    · intro h400
      by_contra hne
      simp only [not_or, Bool.not_eq_false] at hne
      exact (htruthy hne.1 hne.2).1 h400
    · intro h
      rw [hfalsy h]
  refine ⟨?_, hiff, ?_, ?_⟩
  · constructor
    · intro h
      exact hiff.mp h.1
    · intro h
      rw [hfalsy h]
      exact ⟨rfl, rfl⟩
  · intro h
    rw [hfalsy h]
  · intro hq hn hh
    refine ⟨(htruthy hq hn).1, ?_⟩
    intro h q hmem
    rw [(htruthy hq hn).2] at hmem
    have hc := chatHandlerTry_truthy_calls env body hq hn _ hmem
    simp only [reduceCtorEq, false_or, exists_false, Call.invoke.injEq] at hc
    refine ⟨?_, hc.2⟩
    rw [hc.1]
    simp [JsValue.or, hh]

/-- Witness for C4: a body without `history` is not rejected and the chain is invoked with
the empty history; a body without `question` is rejected with no call made. -/
theorem chatHandler_rejects_iff_question_or_namespace_falsy_witness :
    ((getProp [("question", .string "Where did they work?"), ("namespace", .string "ns-1")]
        "question").truthy = true ∧
      (getProp [("question", .string "Where did they work?"), ("namespace", .string "ns-1")]
        "namespace").truthy = true ∧
      (getProp [("question", .string "Where did they work?"), ("namespace", .string "ns-1")]
        "history").truthy = false ∧
      (getProp [("namespace", .string "ns-1"), ("history", .array [])]
        "question").truthy = false) ∧
    (chatHandler workingEnv
        [("question", .string "Where did they work?"), ("namespace", .string "ns-1")]).1.status
      ≠ 400 ∧
    (∀ h q, Call.invoke h q ∈ (chatHandler workingEnv
        [("question", .string "Where did they work?"), ("namespace", .string "ns-1")]).2 →
      h = .array [] ∧ q = getProp
        [("question", .string "Where did they work?"), ("namespace", .string "ns-1")]
        "question") ∧
    Call.invoke (.array []) (.string "Where did they work?") ∈ (chatHandler workingEnv
        [("question", .string "Where did they work?"), ("namespace", .string "ns-1")]).2 ∧
    (chatHandler workingEnv [("namespace", .string "ns-1"), ("history", .array [])]).1.status
      = 400 ∧
    (chatHandler workingEnv [("namespace", .string "ns-1"), ("history", .array [])]).2 = [] :=
  ⟨⟨rfl, rfl, rfl, rfl⟩,
   ((chatHandler_rejects_iff_question_or_namespace_falsy workingEnv
        [("question", .string "Where did they work?"), ("namespace", .string "ns-1")]).2.2.2
      rfl rfl rfl).1,
   ((chatHandler_rejects_iff_question_or_namespace_falsy workingEnv
        [("question", .string "Where did they work?"), ("namespace", .string "ns-1")]).2.2.2
      rfl rfl rfl).2,
   by simp [chatHandler, chatHandlerTry, workingEnv, call, getProp, List.lookup, JsValue.truthy,
        JsValue.or, JsValue.get, liftExcept, bind, Ext.bind, pure, Ext.pure],
   (chatHandler_rejects_iff_question_or_namespace_falsy workingEnv
        [("namespace", .string "ns-1"), ("history", .array [])]).2.1.mpr (Or.inl rfl),
   (chatHandler_rejects_iff_question_or_namespace_falsy workingEnv
        [("namespace", .string "ns-1"), ("history", .array [])]).2.2.1 (Or.inl rfl)⟩

/-- C5: for every upload request carrying a file, the response contains a `namespace` field
exactly when `ingestDocument` completed without error; then the status is 200 and the field
is the identifier returned by `randomUUID()`, which is the namespace `ingestDocument` was
called with (every write to the index is made under it); when ingestion throws, the response
is the 500 error object, which has no `namespace` field. -/
theorem uploadHandler_namespace_iff_ingested (env : Env) (f : UploadedFile) :
    (((uploadHandler env (some f)).1.body.lookup "namespace").isSome = true ↔
      (ingestDocument env f.path env.randomUUID).1 = .ok ()) ∧
    ((ingestDocument env f.path env.randomUUID).1 = .ok () →
      (uploadHandler env (some f)).1.status = 200 ∧
      (uploadHandler env (some f)).1.body.lookup "namespace"
        = some (.string env.randomUUID)) ∧
    (∀ e, (ingestDocument env f.path env.randomUUID).1 = .error e →
      (uploadHandler env (some f)).1.status = 500 ∧
      (uploadHandler env (some f)).1.body = [("error", .string "Failed to process file.")] ∧
      (uploadHandler env (some f)).1.body.lookup "namespace" = none) ∧
    (uploadHandler env (some f)).2 = (ingestDocument env f.path env.randomUUID).2 ∧
    (∀ docs e cfg, Call.fromDocuments docs e cfg ∈ (uploadHandler env (some f)).2 →
      cfg.namespace_ = .string env.randomUUID) := by
  have hcalls := ingestDocument_calls env f.path env.randomUUID
  have htrace : (uploadHandler env (some f)).2
      = (ingestDocument env f.path env.randomUUID).2 := by
    rcases hx : ingestDocument env f.path env.randomUUID with ⟨r, calls⟩
    cases r <;> simp [uploadHandler, hx]
  refine ⟨?_, ?_, ?_, htrace, ?_⟩
  · rcases hx : ingestDocument env f.path env.randomUUID with ⟨r, calls⟩
    cases r <;> simp [uploadHandler, hx, List.lookup]
  · rcases hx : ingestDocument env f.path env.randomUUID with ⟨r, calls⟩
    cases r <;> simp [uploadHandler, hx, List.lookup]
  · rcases hx : ingestDocument env f.path env.randomUUID with ⟨r, calls⟩
    cases r <;> simp [uploadHandler, hx, List.lookup]
  · intro docs e cfg hmem
    rw [htrace] at hmem
    have hc := hcalls _ hmem
    simp only [reduceCtorEq, false_or, exists_false, Call.fromDocuments.injEq] at hc
    obtain ⟨_, _, _, _, hcfg⟩ := hc
    rw [hcfg]

/-- Witness for C5: with every capability available the response carries the generated
identifier; with an unreadable PDF it is the 500 error without a namespace. -/
theorem uploadHandler_namespace_iff_ingested_witness :
    (ingestDocument workingEnv "uploads/a1b2" workingEnv.randomUUID).1 = .ok () ∧
    (ingestDocument brokenPdfEnv "uploads/a1b2" brokenPdfEnv.randomUUID).1
      = .error "Invalid PDF structure" ∧
    ((uploadHandler workingEnv (some { path := "uploads/a1b2" })).1.status = 200 ∧
      (uploadHandler workingEnv (some { path := "uploads/a1b2" })).1.body.lookup "namespace"
        = some (.string "3f2b8c1e-0000-4000-8000-000000000001")) ∧
    ((uploadHandler brokenPdfEnv (some { path := "uploads/a1b2" })).1.status = 500 ∧
      (uploadHandler brokenPdfEnv (some { path := "uploads/a1b2" })).1.body
        = [("error", .string "Failed to process file.")] ∧
      (uploadHandler brokenPdfEnv (some { path := "uploads/a1b2" })).1.body.lookup "namespace"
        = none) :=
  ⟨rfl, rfl,
   (uploadHandler_namespace_iff_ingested workingEnv { path := "uploads/a1b2" }).2.1 rfl,
   (uploadHandler_namespace_iff_ingested brokenPdfEnv { path := "uploads/a1b2" }).2.2.1
      "Invalid PDF structure" rfl⟩

/-- C10 (the code at the failing input): an upload handled by the server writes the chunks
with no `maxConcurrency` setting, while the script `ingestResume` writes them with
`maxConcurrency: 5`. -/
theorem ingestDocument_writes_without_maxConcurrency :
    (uploadHandler workingEnv (some { path := "uploads/a1b2" })).1.status = 200 ∧
    (uploadHandler workingEnv (some { path := "uploads/a1b2" })).2.filterMap
        Call.writeConcurrency? = [none] ∧
    (ingestDocument workingEnv "uploads/a1b2" "ns-1").2.filterMap
        Call.writeConcurrency? = [none] ∧
    (ingestResume workingEnv).filterMap Call.writeConcurrency? = [some 5] := by
  refine ⟨rfl, rfl, rfl, rfl⟩

/-- C9: the embeddings object (model and configuration) given to the vector store on the chat
path equals the one given to it at ingestion, in the server (`ingestDocument` and the
`/api/chat` handler) and in the scripts (`ingest.js` and `chat.js`): whatever calls the two
paths make, every embeddings object on one side equals every one on the other.  And the
calls are made: an ingestion that completes (server or script) has written the chunks with
the model `text-embedding-004`, a chat request answered with status 200 and a session of
`main` whose chain was built have opened the store with the model `text-embedding-004`. -/
theorem embeddings_same_at_ingestion_and_chat
    (env : Env) (filePath namespace_ : String) (body : List (String × JsValue))
    (lines : List String) :
    (∀ c ∈ (ingestDocument env filePath namespace_).2, ∀ d ∈ (chatHandler env body).2,
      ∀ e1 e2, c.embeddings? = some e1 → d.embeddings? = some e2 → e1 = e2) ∧
    (∀ c ∈ ingestResume env, ∀ d ∈ (main env lines).2,
      ∀ e1 e2, c.embeddings? = some e1 → d.embeddings? = some e2 → e1 = e2) ∧
    ((ingestDocument env filePath namespace_).1 = .ok () →
      ∃ docs cfg, Call.fromDocuments docs { model := "text-embedding-004" } cfg
        ∈ (ingestDocument env filePath namespace_).2) ∧
    ((chatHandler env body).1.status = 200 →
      ∃ cfg, Call.fromExistingIndex { model := "text-embedding-004" } cfg
        ∈ (chatHandler env body).2) ∧
    ((ingestResumeTry env).1 = .ok () →
      ∃ docs cfg, Call.fromDocuments docs { model := "text-embedding-004" } cfg
        ∈ ingestResume env) ∧
    ((mainSetup env).1 = .ok () →
      ∃ cfg, Call.fromExistingIndex { model := "text-embedding-004" } cfg
        ∈ (main env lines).2) ∧
    ingestDocumentEmbeddings = chatHandlerEmbeddings ∧
    ingestResumeEmbeddings = mainEmbeddings := by
  refine ⟨?_, ?_, ?_, ?_, ?_, ?_, rfl, rfl⟩
  · intro c hc d hd e1 e2 h1 h2
    rw [ingestDocument_embeddings env filePath namespace_ c hc e1 h1,
      chatHandler_embeddings env body d hd e2 h2]
    rfl
  · intro c hc d hd e1 e2 h1 h2
    rw [ingestResume_embeddings env c hc e1 h1, main_embeddings env lines d hd e2 h2]
    rfl
  · intro hok
    obtain ⟨c, hc, docs, cfg, hcall⟩ := ingestDocument_reaches env filePath namespace_ () hok
    exact ⟨docs, cfg, hcall ▸ hc⟩
  · intro h200
    by_cases hq : (getProp body "question").truthy = true
    · by_cases hn : (getProp body "namespace").truthy = true
      · have hreach := chatHandlerTry_reaches env body hq hn
        rw [chatHandler_trace]
        rcases hx : chatHandlerTry env body with ⟨r, calls⟩
        cases r with
        | ok resp =>
            obtain ⟨c, hc, cfg, hcall⟩ := hreach resp (by rw [hx])
            rw [hx] at hc
            exact ⟨cfg, hcall ▸ hc⟩
        | error e =>
            simp [chatHandler, hx] at h200
      · have hfalsy := chatHandlerTry_falsy env body (Or.inr (by simpa using hn))
        simp [chatHandler, hfalsy] at h200
    · have hfalsy := chatHandlerTry_falsy env body (Or.inl (by simpa using hq))
      simp [chatHandler, hfalsy] at h200
  · intro hok
    obtain ⟨c, hc, docs, cfg, hcall⟩ := ingestResumeTry_reaches env () hok
    exact ⟨docs, cfg, hcall ▸ hc⟩
  · intro hok
    obtain ⟨c, hc, cfg, hcall⟩ := mainSetup_reaches env () hok
    refine ⟨cfg, ?_⟩
    unfold main
    rw [Ext.bind_fst_ok (mainSetup env) _ () hok]
    exact List.mem_append.mpr (Or.inl (hcall ▸ hc))

/-- Witness for C9: with every capability available, the write of the ingestion and the
store opened on the chat path are in the traces, in the server and in the scripts, and they
carry the same embeddings object. -/
theorem embeddings_same_at_ingestion_and_chat_witness :
    (Call.fromDocuments (.object []) { model := "text-embedding-004" }
        { pineconeIndex := .object [], namespace_ := .string "ns-1", maxConcurrency := none }
      ∈ (ingestDocument workingEnv "uploads/a1b2" "ns-1").2 ∧
    Call.fromExistingIndex { model := "text-embedding-004" }
        { pineconeIndex := .object [], namespace_ := .string "ns-1", maxConcurrency := none }
      ∈ (chatHandler workingEnv
          [("question", .string "Where did they work?"), ("namespace", .string "ns-1")]).2 ∧
    (Call.fromDocuments (.object []) { model := "text-embedding-004" }
        { pineconeIndex := .object [], namespace_ := .string "ns-1",
          maxConcurrency := none }).embeddings? = some ingestDocumentEmbeddings ∧
    (Call.fromExistingIndex { model := "text-embedding-004" }
        { pineconeIndex := .object [], namespace_ := .string "ns-1",
          maxConcurrency := none }).embeddings? = some chatHandlerEmbeddings ∧
    ingestDocumentEmbeddings = chatHandlerEmbeddings) ∧
    (Call.fromDocuments (.object []) { model := "text-embedding-004" }
        { pineconeIndex := .object [], namespace_ := .string "Chiranshu_resume",
          maxConcurrency := some 5 }
      ∈ ingestResume workingEnv ∧
    Call.fromExistingIndex { model := "text-embedding-004" }
        { pineconeIndex := .object [], namespace_ := .string "Chiranshu_resume",
          maxConcurrency := none }
      ∈ (main workingEnv ["Where did they work?"]).2 ∧
    (Call.fromDocuments (.object []) { model := "text-embedding-004" }
        { pineconeIndex := .object [], namespace_ := .string "Chiranshu_resume",
          maxConcurrency := some 5 }).embeddings? = some ingestResumeEmbeddings ∧
    (Call.fromExistingIndex { model := "text-embedding-004" }
        { pineconeIndex := .object [], namespace_ := .string "Chiranshu_resume",
          maxConcurrency := none }).embeddings? = some mainEmbeddings ∧
    ingestResumeEmbeddings = mainEmbeddings) ∧
    ((ingestDocument workingEnv "uploads/a1b2" "ns-1").1 = .ok () ∧
      (chatHandler workingEnv
        [("question", .string "Where did they work?"), ("namespace", .string "ns-1")]).1.status
        = 200 ∧
      (ingestResumeTry workingEnv).1 = .ok () ∧ (mainSetup workingEnv).1 = .ok ()) ∧
    (∃ docs cfg, Call.fromDocuments docs { model := "text-embedding-004" } cfg
        ∈ ingestResume workingEnv) ∧
    (∃ cfg, Call.fromExistingIndex { model := "text-embedding-004" } cfg
        ∈ (main workingEnv ["Where did they work?"]).2) :=
  have h1 : Call.fromDocuments (.object []) { model := "text-embedding-004" }
        { pineconeIndex := .object [], namespace_ := .string "ns-1", maxConcurrency := none }
      ∈ (ingestDocument workingEnv "uploads/a1b2" "ns-1").2 := by
    simp [ingestDocument, ingestDocumentEmbeddings, workingEnv, call, bind, Ext.bind, pure,
      Ext.pure]
  have h2 : Call.fromExistingIndex { model := "text-embedding-004" }
        { pineconeIndex := .object [], namespace_ := .string "ns-1", maxConcurrency := none }
      ∈ (chatHandler workingEnv
          [("question", .string "Where did they work?"), ("namespace", .string "ns-1")]).2 := by
    simp [chatHandler, chatHandlerTry, chatHandlerEmbeddings, workingEnv, call, getProp,
      List.lookup, JsValue.truthy, JsValue.or, JsValue.get, liftExcept, bind, Ext.bind, pure,
      Ext.pure]
  have h3 : Call.fromDocuments (.object []) { model := "text-embedding-004" }
        { pineconeIndex := .object [], namespace_ := .string "Chiranshu_resume",
          maxConcurrency := some 5 }
      ∈ ingestResume workingEnv := by
    simp [ingestResume, ingestResumeTry, ingestResumeEmbeddings, RESUME_NAMESPACE, workingEnv,
      call, bind, Ext.bind, pure, Ext.pure]
  have h4 : Call.fromExistingIndex { model := "text-embedding-004" }
        { pineconeIndex := .object [], namespace_ := .string "Chiranshu_resume",
          maxConcurrency := none }
      ∈ (main workingEnv ["Where did they work?"]).2 := by
    simp [main, mainSetup, mainLoop, mainEmbeddings, RESUME_NAMESPACE, workingEnv, call,
      bind, Ext.bind, pure, Ext.pure]
  ⟨⟨h1, h2, rfl, rfl,
    (embeddings_same_at_ingestion_and_chat workingEnv "uploads/a1b2" "ns-1"
      [("question", .string "Where did they work?"), ("namespace", .string "ns-1")]
      ["Where did they work?"]).1 _ h1 _ h2 _ _ rfl rfl⟩,
   ⟨h3, h4, rfl, rfl,
    (embeddings_same_at_ingestion_and_chat workingEnv "uploads/a1b2" "ns-1"
      [("question", .string "Where did they work?"), ("namespace", .string "ns-1")]
      ["Where did they work?"]).2.1 _ h3 _ h4 _ _ rfl rfl⟩,
   ⟨rfl, rfl, rfl, rfl⟩,
   (embeddings_same_at_ingestion_and_chat workingEnv "uploads/a1b2" "ns-1"
      [("question", .string "Where did they work?"), ("namespace", .string "ns-1")]
      ["Where did they work?"]).2.2.2.2.1 rfl,
   (embeddings_same_at_ingestion_and_chat workingEnv "uploads/a1b2" "ns-1"
      [("question", .string "Where did they work?"), ("namespace", .string "ns-1")]
      ["Where did they work?"]).2.2.2.2.2.1 rfl⟩

/-! ## Theorems: history entries -/

/-- C8 (as stated, refuted): the history that the web client sends from `readyState` has an
entry whose role is `ai`, neither `user` nor `assistant`; and the entry that the command-line
session appends for an answer has role `ai`. -/
theorem history_role_ai_is_not_assistant :
    (handleSubmit answeringFetch readyState).2 = [submitRequest readyState] ∧
    (submitRequest readyState).history
      = [{ role := "ai", content := "Ready! Ask me anything about **cv.pdf**." }] ∧
    (¬ ∀ e ∈ (submitRequest readyState).history, e.role = "user" ∨ e.role = "assistant") ∧
    (main workingEnv ["Where did they work?"]).1
      = .ok [historyEntry "user" (.string "Where did they work?"),
             historyEntry "ai" (.string "Acme Corp.")] ∧
    (historyEntry "ai" (.string "Acme Corp.")).role? = some "ai" ∧
    ¬ ((historyEntry "ai" (.string "Acme Corp.")).role? = some "user" ∨
       (historyEntry "ai" (.string "Acme Corp.")).role? = some "assistant") := by
  refine ⟨by decide, by decide, by decide, rfl, by decide, by decide⟩

/-- C8 (amended): every entry of the history that the web client sends to the chat surface,
and every entry of `chatHistory` in the command-line session (all of them appended by the
loop), has a role that is either `user` or `ai`. -/
theorem history_roles_are_user_or_ai
    (fetch : ChatRequest → FetchResult) (s : AppState) (env : Env) (lines : List String) :
    (∀ request ∈ (handleSubmit fetch s).2, ∀ e ∈ request.history,
      e.role = "user" ∨ e.role = "ai") ∧
    (∀ chatHistory, (main env lines).1 = .ok chatHistory →
      ∀ e ∈ chatHistory, e.role? = some "user" ∨ e.role? = some "ai") := by
  constructor
  · intro request hreq e he
    have hhist : request.history = historyOf s.messages := by
      unfold handleSubmit at hreq
      split at hreq
      · cases hreq
      · simp only [List.mem_singleton] at hreq
        rw [hreq]
        rfl
    rw [hhist] at he
    simp only [historyOf, List.mem_map] at he
    obtain ⟨msg, _, hmsg⟩ := he
    rw [← hmsg]
    by_cases hu : msg.sender = "user" <;> simp [hu]
  · have hret : Ext.Returns
        (fun h => ∀ e ∈ h, e.role? = some "user" ∨ e.role? = some "ai") (main env lines) := by
      unfold main
      with_reducible apply Ext.returns_bind
      intro _
      apply mainLoop_returns (fun e => e.role? = some "user" ∨ e.role? = some "ai")
      · intro c
        exact Or.inl rfl
      · intro c
        exact Or.inr rfl
      · intro e he
        cases he
    exact hret

/-- Witness for C8 (amended): the request sent from `readyState` and a one-turn session. -/
theorem history_roles_are_user_or_ai_witness :
    submitRequest readyState ∈ (handleSubmit answeringFetch readyState).2 ∧
    (∀ e ∈ (submitRequest readyState).history, e.role = "user" ∨ e.role = "ai") ∧
    (main workingEnv ["Where did they work?"]).1
      = .ok [historyEntry "user" (.string "Where did they work?"),
             historyEntry "ai" (.string "Acme Corp.")] ∧
    (∀ e ∈ [historyEntry "user" (.string "Where did they work?"),
            historyEntry "ai" (.string "Acme Corp.")],
      e.role? = some "user" ∨ e.role? = some "ai") :=
  ⟨by decide,
   (history_roles_are_user_or_ai answeringFetch readyState workingEnv
      ["Where did they work?"]).1 (submitRequest readyState) (by decide),
   rfl,
   (history_roles_are_user_or_ai answeringFetch readyState workingEnv
      ["Where did they work?"]).2 _ rfl⟩

/-- C3: in a command-line session whose chain was built and in which the `n` questions
`q_1..q_n` (none of them `exit`) are answered by the chain with `a_1..a_n`, `main` ends with
a `chatHistory` of exactly `2n` entries; for each turn `i` (counted from 0) the entries at
positions `2i` and `2i+1` are the user entry with content `q_i` and the assistant-side entry
(role `ai`) with content `a_i`; and the history after the first `k` turns has `2k` entries
and is an initial segment of the final history, so earlier entries are neither edited nor
removed. -/
theorem main_history_after_n_turns (env : Env) (turns : List (String × JsValue))
    (hsetup : (mainSetup env).1 = .ok ())
    (hturns : ∀ i (hi : i < turns.length),
      isExit turns[i].1 = false ∧
      ∃ response,
        env.respond (.invoke (.array (transcript (turns.take i))) (.string turns[i].1))
          = .ok response ∧
        response.get "answer" = .ok turns[i].2) :
    ∃ chatHistory,
      (main env (turns.map Prod.fst)).1 = .ok chatHistory ∧
      chatHistory.length = 2 * turns.length ∧
      (∀ i (hi : i < turns.length),
        chatHistory[2 * i]?
          = some (.object [("role", .string "user"), ("content", .string turns[i].1)]) ∧
        chatHistory[2 * i + 1]?
          = some (.object [("role", .string "ai"), ("content", turns[i].2)])) ∧
      (∀ k, k ≤ turns.length →
        ∃ earlier,
          (main env ((turns.take k).map Prod.fst)).1 = .ok earlier ∧
          earlier.length = 2 * k ∧ earlier <+: chatHistory) := by
  have hmain : ∀ ts : List (String × JsValue),
      (∀ i (hi : i < ts.length),
        isExit ts[i].1 = false ∧
        ∃ response,
          env.respond (.invoke (.array (transcript (ts.take i))) (.string ts[i].1))
            = .ok response ∧
          response.get "answer" = .ok ts[i].2) →
      (main env (ts.map Prod.fst)).1 = .ok (transcript ts) := by
    intro ts hts
    unfold main
    rw [Ext.bind_fst_ok (mainSetup env) _ () hsetup]
    have := mainLoop_answered env ts [] (by simpa using hts)
    simpa using this
  refine ⟨transcript turns, hmain turns hturns, transcript_length turns,
    transcript_getElem? turns, ?_⟩
  intro k hk
  refine ⟨transcript (turns.take k), hmain (turns.take k) ?_, ?_, ?_⟩
  · intro i hi
    have hik : i < k := by
      simp only [List.length_take] at hi
      omega
    have hit : i < turns.length := by omega
    have := hturns i hit
    simpa [List.getElem_take, List.take_take, Nat.min_eq_left (Nat.le_of_lt hik)] using this
  · rw [transcript_length, List.length_take]
    omega
  · refine ⟨transcript (turns.drop k), ?_⟩
    rw [← transcript_append, List.take_append_drop]

/-- Witness for C3 (the specification's Scenario 5): two answered turns give a history of
length 4 in submission order. -/
theorem main_history_after_n_turns_witness :
    (mainSetup workingEnv).1 = .ok () ∧
    isExit "Where did they work?" = false ∧ isExit "When?" = false ∧
    workingEnv.respond (.invoke (.array []) (.string "Where did they work?"))
      = .ok (.object [("answer", .string "Acme Corp.")]) ∧
    (main workingEnv ["Where did they work?", "When?"]).1
      = .ok [.object [("role", .string "user"), ("content", .string "Where did they work?")],
             .object [("role", .string "ai"), ("content", .string "Acme Corp.")],
             .object [("role", .string "user"), ("content", .string "When?")],
             .object [("role", .string "ai"), ("content", .string "Acme Corp.")]] ∧
    ∃ chatHistory,
      (main workingEnv (twoTurns.map Prod.fst)).1 = .ok chatHistory ∧
      chatHistory.length = 2 * twoTurns.length ∧
      (∀ i (hi : i < twoTurns.length),
        chatHistory[2 * i]?
          = some (.object [("role", .string "user"), ("content", .string twoTurns[i].1)]) ∧
        chatHistory[2 * i + 1]?
          = some (.object [("role", .string "ai"), ("content", twoTurns[i].2)])) ∧
      (∀ k, k ≤ twoTurns.length →
        ∃ earlier,
          (main workingEnv ((twoTurns.take k).map Prod.fst)).1 = .ok earlier ∧
          earlier.length = 2 * k ∧ earlier <+: chatHistory) :=
  ⟨rfl, by decide, by decide, rfl, rfl,
   main_history_after_n_turns workingEnv twoTurns rfl (fun i hi =>
    match i, hi with
    | 0, _ => ⟨rfl, _, rfl, rfl⟩
    | 1, _ => ⟨rfl, _, rfl, rfl⟩
    | n + 2, h => absurd h (by simp [twoTurns]))⟩

/-! ## Lemmas on a web session -/

theorem clientTranscript_length (turns : List (String × String)) :
    (clientTranscript turns).length = 2 * turns.length := by
  induction turns with
  | nil => rfl
  | cons t rest ih =>
      obtain ⟨q, a⟩ := t
      simp only [clientTranscript, List.length_cons, ih]
      omega

theorem clientTranscript_getElem? (turns : List (String × String)) :
    ∀ i (hi : i < turns.length),
      (clientTranscript turns)[2 * i]? = some { role := "user", content := turns[i].1 } ∧
      (clientTranscript turns)[2 * i + 1]? = some { role := "ai", content := turns[i].2 } := by
  induction turns with
  | nil =>
      intro i hi
      simp at hi
  | cons t rest ih =>
      obtain ⟨q, a⟩ := t
      intro i hi
      cases i with
      | zero => simp [clientTranscript]
      | succ j =>
          have hj : j < rest.length := by
            simp only [List.length_cons] at hi
            omega
          have h2 : 2 * (j + 1) = (2 * j + 1) + 1 := by omega
          rw [h2]
          simp only [clientTranscript, List.getElem?_cons_succ, List.getElem_cons_succ]
          exact ih j hj

theorem historyOf_append (xs ys : List Message) :
    historyOf (xs ++ ys) = historyOf xs ++ historyOf ys := by
  simp [historyOf]

/-- A successful upload: the state afterwards. -/
theorem handleUpload_accepted (upload : File → UploadResult) (s : AppState) (file : File)
    (namespace_ : Option String) (hfile : s.file = some file)
    (hupload : upload file = .response true (.ok namespace_)) :
    (handleUpload upload s).1.messages = [greeting file] ∧
    (handleUpload upload s).1.namespace_ = namespace_ ∧
    (handleUpload upload s).1.isLoading = false := by
  simp [handleUpload, hfile, hupload, setUploadStatus, setMessages, setNamespace, setIsLoading]

/-- One answered turn: the request that is sent and the state afterwards. -/
theorem ask_answered (fetch : ChatRequest → FetchResult) (s : AppState) (q a : String)
    (hload : s.isLoading = false) (hns : truthy s.namespace_ = true) (hq : q ≠ "")
    (hans : fetch { question := q, namespace_ := s.namespace_, history := historyOf s.messages }
      = .response true (some a)) :
    (ask fetch q s).2
      = [{ question := q, namespace_ := s.namespace_, history := historyOf s.messages }] ∧
    (ask fetch q s).1.messages
      = s.messages ++ [{ sender := "user", text := q }, { sender := "ai", text := a }] ∧
    (ask fetch q s).1.isLoading = false ∧
    (ask fetch q s).1.namespace_ = s.namespace_ := by
  have hb : submitBlocked (setInput q s) = false := by
    simp [submitBlocked, setInput, hload, hns, hq]
  have hreq : submitRequest (setInput q s)
      = { question := q, namespace_ := s.namespace_, history := historyOf s.messages } := rfl
  have hrun : ask fetch q s
      = (handleSubmitFinish (.response true (some a)) (handleSubmitStart (setInput q s)),
         [submitRequest (setInput q s)]) := by
    unfold ask handleSubmit
    rw [hb]
    simp only [Bool.false_eq_true, ↓reduceIte, hreq, hans]
  rw [hrun, hreq]
  simp [handleSubmitFinish, handleSubmitStart, setMessages, setIsLoading, setInput]

/-- The session invariant: after answered turns the history built from the messages is the
old one followed by the entries of the turns, no turn is in flight and the namespace is kept. -/
theorem askAll_answered (fetch : ChatRequest → FetchResult) (ns : Option String)
    (hns : truthy ns = true) (turns : List (String × String)) :
    ∀ s : AppState, s.isLoading = false → s.namespace_ = ns →
      (∀ i (hi : i < turns.length),
        turns[i].1 ≠ "" ∧
        fetch { question := turns[i].1, namespace_ := ns,
                history := historyOf s.messages ++ clientTranscript (turns.take i) }
          = .response true (some turns[i].2)) →
      historyOf (askAll fetch (turns.map Prod.fst) s).messages
        = historyOf s.messages ++ clientTranscript turns ∧
      (askAll fetch (turns.map Prod.fst) s).isLoading = false ∧
      (askAll fetch (turns.map Prod.fst) s).namespace_ = ns := by
  induction turns with
  | nil =>
      intro s hload hs _
      simp [askAll, clientTranscript, hload, hs]
  | cons t rest ih =>
      obtain ⟨q, a⟩ := t
      intro s hload hs h
      obtain ⟨hq, hans⟩ := h 0 (by simp)
      simp only [List.getElem_cons_zero, List.take_zero, clientTranscript, List.append_nil]
        at hq hans
      have hstep := ask_answered fetch s q a hload (by rw [hs]; exact hns) hq
        (by rw [hs]; exact hans)
      obtain ⟨_, hmsgs, hload1, hns1⟩ := hstep
      have hrest := ih (ask fetch q s).1 hload1 (by rw [hns1, hs])
        (by
          intro i hi
          have := h (i + 1) (by simp only [List.length_cons]; omega)
          simpa [hmsgs, historyOf_append, historyOf, clientTranscript] using this)
      simp only [List.map_cons, askAll]
      refine ⟨?_, hrest.2.1, hrest.2.2⟩
      rw [hrest.1, hmsgs, historyOf_append]
      simp [historyOf, clientTranscript]

/-! ## Theorems: the history sent by the web client -/

/-- C11: after a successful upload of `file` (the upload surface returns a non-empty
namespace) followed by `n` answered turns `(q_i, a_i)`, submitting a further non-empty
question `q` sends exactly one request; its question is `q` and its history has exactly
`2n+1` entries: first the assistant-side greeting `Ready! Ask me anything about **name**.`,
then for each turn `i` (counted from 0) the user entry `q_i` at position `2i+1` and the
assistant-side entry `a_i` at position `2i+2`.  The history is the image, entry by entry and
in the same order, of the messages held before the submit, so the question being asked is
not in it, and it is never empty. -/
theorem history_sent_after_upload_and_turns
    (upload : File → UploadResult) (fetch : ChatRequest → FetchResult) (s0 : AppState)
    (file : File) (ns : String) (turns : List (String × String)) (q : String)
    (hfile : s0.file = some file)
    (hupload : upload file = .response true (.ok (some ns)))
    (hns : ns ≠ "")
    (hturns : ∀ i (hi : i < turns.length),
      turns[i].1 ≠ "" ∧
      fetch { question := turns[i].1, namespace_ := some ns,
              history := historyOf [greeting file] ++ clientTranscript (turns.take i) }
        = .response true (some turns[i].2))
    (hq : q ≠ "") :
    ∃ request,
      (ask fetch q (askAll fetch (turns.map Prod.fst) (handleUpload upload s0).1)).2
        = [request] ∧
      request.question = q ∧
      request.history.length = 2 * turns.length + 1 ∧
      request.history[0]?
        = some { role := "ai",
                 content := "Ready! Ask me anything about **" ++ file.name ++ "**." } ∧
      (∀ i (hi : i < turns.length),
        request.history[2 * i + 1]? = some { role := "user", content := turns[i].1 } ∧
        request.history[2 * i + 2]? = some { role := "ai", content := turns[i].2 }) ∧
      request.history
        = historyOf (askAll fetch (turns.map Prod.fst) (handleUpload upload s0).1).messages ∧
      request.history ≠ [] := by
  obtain ⟨hm0, hn0, hl0⟩ := handleUpload_accepted upload s0 file (some ns) hfile hupload
  have htruthy : truthy (some ns) = true := by simp [truthy, hns]
  obtain ⟨hhist, hload, hnsp⟩ := askAll_answered fetch (some ns) htruthy turns
    (handleUpload upload s0).1 hl0 hn0 (by rw [hm0]; exact hturns)
  rw [hm0] at hhist
  have hblocked : submitBlocked
      (setInput q (askAll fetch (turns.map Prod.fst) (handleUpload upload s0).1)) = false := by
    simp [submitBlocked, setInput, hload, hnsp, htruthy, hq]
  have hsent : (ask fetch q (askAll fetch (turns.map Prod.fst) (handleUpload upload s0).1)).2
      = [submitRequest
          (setInput q (askAll fetch (turns.map Prod.fst) (handleUpload upload s0).1))] := by
    unfold ask handleSubmit
    rw [hblocked]
    simp only [Bool.false_eq_true, ↓reduceIte]
  have hreqhist : (submitRequest
      (setInput q (askAll fetch (turns.map Prod.fst) (handleUpload upload s0).1))).history
        = historyOf [greeting file] ++ clientTranscript turns := by
    rw [← hhist]
    rfl
  have hcons : historyOf [greeting file] ++ clientTranscript turns
      = { role := "ai", content := "Ready! Ask me anything about **" ++ file.name ++ "**." }
          :: clientTranscript turns := by
    simp [historyOf, greeting]
  refine ⟨_, hsent, rfl, ?_, ?_, ?_, ?_, ?_⟩
  · rw [hreqhist, hcons, List.length_cons, clientTranscript_length]
  · rw [hreqhist, hcons]
    exact List.getElem?_cons_zero
  · intro i hi
    rw [hreqhist, hcons]
    simp only [List.getElem?_cons_succ]
    exact clientTranscript_getElem? turns i hi
  · rw [hreqhist, hhist]
  · rw [hreqhist, hcons]
    exact List.cons_ne_nil _ _

/-- Witness for C11: after the upload of `cv.pdf`, the first question is sent with the
greeting alone as history, and after one answered turn the next question is sent with three
entries. -/
theorem history_sent_after_upload_and_turns_witness :
    (fileChosenState.file = some { name := "cv.pdf" } ∧
      acceptingUpload { name := "cv.pdf" } = .response true (.ok (some "ns-1"))) ∧
    (ask answeringFetch "Where did they work?"
        (askAll answeringFetch [] (handleUpload acceptingUpload fileChosenState).1)).2
      = [{ question := "Where did they work?", namespace_ := some "ns-1",
           history :=
            [{ role := "ai", content := "Ready! Ask me anything about **cv.pdf**." }] }] ∧
    (ask answeringFetch "When?"
        (askAll answeringFetch (oneTurn.map Prod.fst)
          (handleUpload acceptingUpload fileChosenState).1)).2
      = [{ question := "When?", namespace_ := some "ns-1",
           history :=
            [{ role := "ai", content := "Ready! Ask me anything about **cv.pdf**." },
             { role := "user", content := "Where did they work?" },
             { role := "ai", content := "Acme Corp." }] }] ∧
    ∃ request,
      (ask answeringFetch "When?"
          (askAll answeringFetch (oneTurn.map Prod.fst)
            (handleUpload acceptingUpload fileChosenState).1)).2 = [request] ∧
      request.question = "When?" ∧
      request.history.length = 2 * oneTurn.length + 1 ∧
      request.history[0]?
        = some { role := "ai",
                 content := "Ready! Ask me anything about **" ++ "cv.pdf" ++ "**." } ∧
      (∀ i (hi : i < oneTurn.length),
        request.history[2 * i + 1]? = some { role := "user", content := oneTurn[i].1 } ∧
        request.history[2 * i + 2]? = some { role := "ai", content := oneTurn[i].2 }) ∧
      request.history
        = historyOf (askAll answeringFetch (oneTurn.map Prod.fst)
            (handleUpload acceptingUpload fileChosenState).1).messages ∧
      request.history ≠ [] :=
  ⟨⟨rfl, rfl⟩, by decide, by decide,
   history_sent_after_upload_and_turns acceptingUpload answeringFetch fileChosenState
    { name := "cv.pdf" } "ns-1" oneTurn "When?" rfl rfl (by decide)
    (fun i hi =>
      match i, hi with
      | 0, _ => ⟨(by decide : "Where did they work?" ≠ ""), rfl⟩
      | n + 1, h => absurd h (by simp [oneTurn]))
    (by decide)⟩

end ChatWithResume
